import Mathlib

/-!
Shallow embedding of the VisionCraft AI retail creative builder
(src/services/geminiService.ts and the App component), together with
proofs about its retry controller, request assembly, error classifier
and UI result state.
-/

set_option maxRecDepth 4000

/-- Substring test, modelling the JavaScript `String.prototype.includes`
used throughout `geminiService.ts` on the serialized error object. -/
def includes (hay needle : String) : Bool :=
  decide (List.IsInfix needle.data hay.data)

/-- A JavaScript error value as observed by the service layer:
`errString` is `JSON.stringify(error, Object.getOwnPropertyNames(error))`,
`status` is the optional numeric `error.status` field, and `message` is
the `error.message` field (the empty string standing for an absent or
empty, hence falsy, message). -/
structure JsError where
  errString : String
  status : Option Nat
  message : String
deriving DecidableEq

/-- Serialization of an `Error` freshly constructed by `new Error(msg)`:
its own properties include `message`, so the serialization contains the
message text. -/
def serializeNewError (msg : String) : String :=
  "\x7b\"message\":\"" ++ msg ++ "\"\x7d"

/-- The error value produced by `throw new Error(msg)` in the source. -/
def mkError (msg : String) : JsError :=
  ⟨serializeNewError msg, none, msg⟩

/-- Zero-quota marker check from `retryOperation` (geminiService.ts line 25):
`errString.includes("limit: 0") || errString.includes("limit:0")`. -/
def isZeroQuota (errString : String) : Bool :=
  includes errString "limit: 0" || includes errString "limit:0"

/-- Rate-limit check from `retryOperation` (geminiService.ts lines 31-35). -/
def isRateLimit (e : JsError) : Bool :=
  includes e.errString "429" ||
  includes e.errString "RESOURCE_EXHAUSTED" ||
  includes e.errString "quota" ||
  e.status == some 429

/-- Server-overload check from `retryOperation` (geminiService.ts lines 37-39). -/
def isServerOverload (e : JsError) : Bool :=
  includes e.errString "503" || e.status == some 503

/-- Final outcome of the retry loop: the returned value, or the thrown
error. `failure none` models the `throw lastError` of an uninitialized
`lastError` (only possible when `maxRetries = 0`). -/
inductive RetryOutcome (α : Type) where
  | success : α → RetryOutcome α
  | failure : Option JsError → RetryOutcome α
deriving DecidableEq

/-- Observable trace of one run of `retryOperation`: its outcome, how many
times the wrapped operation was invoked, and the list of waited delays in
milliseconds, in order. -/
structure RetryTrace (α : Type) where
  outcome : RetryOutcome α
  invocations : Nat
  delays : List Nat
deriving DecidableEq

/-- The body of the `for (let i = 0; i < maxRetries; i++)` loop of
`retryOperation` (geminiService.ts lines 16-52), with the iteration count
made structural: `fuel` is the number of remaining iterations
(`maxRetries - i`), `i` the current attempt index, `lastError` the value
of the `lastError` variable. The operation is modelled as a function from
the attempt index to the result of that invocation. Delays recorded in
the returned trace are those waited from attempt `i` onwards. -/
def retryLoop {α : Type} (op : Nat → Except JsError α) (baseDelay : Nat) :
    Nat → Option JsError → Nat → RetryTrace α
  | i, lastError, 0 => ⟨.failure lastError, i, []⟩
  | i, _, fuel + 1 =>
    match op i with
    | .ok v => ⟨.success v, i + 1, []⟩
    | .error e =>
      if isZeroQuota e.errString then
        ⟨.failure (some (mkError "QUOTA_ZERO")), i + 1, []⟩
      else if isRateLimit e || isServerOverload e then
        let t := retryLoop op baseDelay (i + 1) (some e) fuel
        ⟨t.outcome, t.invocations, baseDelay * 2 ^ i :: t.delays⟩
      else
        ⟨.failure (some e), i + 1, []⟩

/-- `retryOperation` from geminiService.ts lines 13-55 (the defaults at the
single call site are `maxRetries = 3`, `baseDelay = 10000`). -/
def retryOperation {α : Type} (op : Nat → Except JsError α)
    (maxRetries baseDelay : Nat) : RetryTrace α :=
  retryLoop op baseDelay 0 none maxRetries

/-- Truthiness of a JavaScript `string | null` value: `null` and the empty
string are falsy, every other string is truthy. -/
def optTruthy : Option String → Bool
  | none => false
  | some s => !(s == "")

/-- `cleanBase64` from geminiService.ts lines 5-10: strips a data-URL
prefix by splitting on the first comma. -/
def cleanBase64 (base64 : String) : String :=
  if base64.contains ',' then (base64.splitOn ",").getD 1 "" else base64

/-- Modelled from the spec: the `AspectRatio` enumeration imported from
`types.ts`, which is not among the provided sources. The spec lists the
values "square, story/vertical, widescreen, portrait, landscape"; the
service passes the selected value through unchanged. -/
inductive AspectRatio where
  | square
  | story
  | widescreen
  | portrait
  | landscape
deriving DecidableEq

/-- One element of the `parts` array assembled for the outbound request:
either an inline-data image part or a text part. -/
inductive ReqPart where
  | inlineData (data : String) (mimeType : String)
  | text (t : String)
deriving DecidableEq

/-- The `imageConfig` object from geminiService.ts lines 117-122. -/
structure ImageConfig where
  aspectRatio : AspectRatio
  imageSize : Option String
deriving DecidableEq

/-- The assembled outbound request: model identifier, ordered parts list,
and image configuration. -/
structure AssembledRequest where
  model : String
  parts : List ReqPart
  imageConfig : ImageConfig
deriving DecidableEq

/-- Fixed prompt text before the conditional logo input line
(geminiService.ts lines 74-78). -/
def promptSeg1 : String :=
  "\n    Create a high-end, aesthetic advertisement image.\n    \n    Inputs:\n    1. Product Image (Focus).\n    "

/-- The conditional logo input line of the prompt (line 79). -/
def logoInputLine : String := "2. Brand Logo (Apply to product)."

/-- Fixed prompt text between the logo input line and the description
(lines 79-80). -/
def promptSeg2 : String := "\n    3. Brief: \""

/-- Fixed prompt text between the description and the conditional logo
directive (lines 80-84). -/
def promptSeg3 : String :=
  "\"\n\n    Directives:\n    - Integrate the product naturally into a generated background matching the brief.\n    - Photorealistic lighting and composition.\n    "

/-- The conditional logo compositing directive of the prompt (line 85). -/
def logoDirective : String :=
  "- COMPOSITE the logo onto the product surface naturally (respect geometry/lighting). Do not float it."

/-- Fixed prompt text after the conditional logo directive (lines 85-87). -/
def promptSeg4 : String := "\n    - No text overlays.\n  "

/-- The `prompt` template literal of `generateAdvertisementImage`
(geminiService.ts lines 74-87): both logo lines are interpolated only
when `logoBase64` is truthy. -/
def buildPrompt (description : String) (logoBase64 : Option String) : String :=
  promptSeg1 ++
  (if optTruthy logoBase64 then logoInputLine else "") ++
  promptSeg2 ++ description ++ promptSeg3 ++
  (if optTruthy logoBase64 then logoDirective else "") ++
  promptSeg4

/-- Request assembly of `generateAdvertisementImage` (geminiService.ts
lines 74-122): prompt, parts list (product image part and its label, a
logo part and its label only when both `logoBase64` and `logoMimeType`
are truthy, then the prompt text), model selection and image config. -/
def assembleRequest (description productBase64 productMimeType : String)
    (logoBase64 logoMimeType : Option String) (aspectRatio : AspectRatio)
    (useProModel : Bool) : AssembledRequest :=
  let prompt := buildPrompt description logoBase64
  let parts : List ReqPart :=
    [ReqPart.inlineData (cleanBase64 productBase64) productMimeType,
     ReqPart.text "Product Image"] ++
    (if optTruthy logoBase64 && optTruthy logoMimeType then
      [ReqPart.inlineData (cleanBase64 (logoBase64.getD "")) (logoMimeType.getD ""),
       ReqPart.text "Brand Logo"]
     else []) ++
    [ReqPart.text prompt]
  ⟨if useProModel then "gemini-3-pro-image-preview" else "gemini-2.5-flash-image",
   parts,
   ⟨aspectRatio, if useProModel then some "1K" else none⟩⟩

/-- The `inlineData` object of a response part. -/
structure InlineData where
  data : String
  mimeType : String
deriving DecidableEq

/-- A part of the service response; `inlineData` is present only on image
parts. -/
structure RespPart where
  inlineData : Option InlineData
deriving DecidableEq

/-- The `content` object of a response candidate, with optional `parts`. -/
structure Content where
  parts : Option (List RespPart)
deriving DecidableEq

/-- A response candidate with optional `content`. -/
structure Candidate where
  content : Option Content
deriving DecidableEq

/-- A service response with optional `candidates`. -/
structure GenResponse where
  candidates : Option (List Candidate)
deriving DecidableEq

/-- `response.candidates?.[0]?.content?.parts || []` from geminiService.ts
line 141. -/
def responseParts (r : GenResponse) : List RespPart :=
  ((((r.candidates.bind fun cs => cs.head?).bind
      fun c => c.content).bind fun ct => ct.parts).getD [])

/-- The response scan of `apiCall` (geminiService.ts lines 141-147): return
a PNG data URL built from the first part carrying inline data, else throw
the no-image error. -/
def extractImage (r : GenResponse) : Except JsError String :=
  match (responseParts r).find? fun p => p.inlineData.isSome with
  | some p => .ok ("data:image/png;base64," ++ ((p.inlineData.map InlineData.data).getD ""))
  | none => .error (mkError "No image was generated. The model might have returned only text.")

/-- The message thrown for a zero-quota failure (geminiService.ts line 159). -/
def zeroQuotaMsg : String :=
  "Access Restricted: Your Google Cloud project has a quota of 0 for this model. Ensure the \x27Generative Language API\x27 is enabled in your Google Cloud Console, or try a different region (US is recommended)."

/-- The message thrown for a permission failure on the Pro tier (line 164). -/
def billingMsg : String :=
  "Permission Denied: The \x27Pro\x27 model requires a Google Cloud project with billing enabled. Please switch back to \x27Standard\x27 for free generation."

/-- The message thrown for a model-not-found failure (line 169). -/
def notFoundMsg (useProModel : Bool) : String :=
  "Model not available. The " ++ (if useProModel then "Pro" else "Standard") ++
  " model is not accessible with your current API key."

/-- The message thrown for a rate-limit or quota failure (line 174). -/
def freeTierMsg : String :=
  "Free Tier Limit Reached: You are generating images too fast or have hit the daily limit. Please wait 1-2 minutes and try again."

/-- The fallback message of the classifier (line 177). -/
def genericFailureMsg : String := "Failed to generate advertisement."

/-- Zero-quota test of the classifier (geminiService.ts line 158). -/
def zeroQuotaSignal (e : JsError) : Bool :=
  e.message == "QUOTA_ZERO" || isZeroQuota e.errString

/-- Permission-denied marker test of the classifier (line 163). -/
def permissionMarker (e : JsError) : Bool :=
  includes e.errString "403" || includes e.errString "PERMISSION_DENIED"

/-- Not-found marker test of the classifier (line 168). -/
def notFoundMarker (e : JsError) : Bool :=
  includes e.errString "404" || includes e.errString "NOT_FOUND"

/-- Rate-limit marker test of the classifier (line 173). -/
def rateLimitMarker (e : JsError) : Bool :=
  includes e.errString "429" || includes e.errString "RESOURCE_EXHAUSTED" ||
  includes e.errString "quota" || includes e.errString "limit"

/-- The error classifier of `generateAdvertisementImage` (geminiService.ts
lines 152-177): maps the error propagated by the retry controller to the
message of the error rethrown to the caller.  The final branch models
`error.message || "Failed to generate advertisement."`. -/
def classifyError (useProModel : Bool) (e : JsError) : String :=
  if zeroQuotaSignal e then zeroQuotaMsg
  else if useProModel && permissionMarker e then billingMsg
  else if notFoundMarker e then notFoundMsg useProModel
  else if rateLimitMarker e then freeTierMsg
  else if e.message == "" then genericFailureMsg
  else e.message

/-- The `apiCall` closure (geminiService.ts lines 124-148) on a given
attempt: the network call may throw, otherwise its response is scanned by
`extractImage`.  The external service is modelled as a function from the
attempt index to the result of that attempt. -/
def apiCallOf (responses : Nat → Except JsError GenResponse) :
    Nat → Except JsError String :=
  fun i => (responses i).bind extractImage

/-- The try/catch around `retryOperation(apiCall)` (geminiService.ts lines
150-178) with the default retry parameters: on failure the caller receives
an `Error` whose message is produced by `classifyError`.  The
`failure none` branch is unreachable because `maxRetries = 3` makes at
least one attempt; in JavaScript it would fault reading `error.message`. -/
def runGeneration (useProModel : Bool)
    (responses : Nat → Except JsError GenResponse) : Except String String :=
  match (retryOperation (apiCallOf responses) 3 10000).outcome with
  | .success v => .ok v
  | .failure (some e) => .error (classifyError useProModel e)
  | .failure none => .error "Cannot read properties of undefined"

/-- `generateAdvertisementImage` (geminiService.ts lines 57-179) as a whole:
the request it assembles for every attempt, and the final value returned
to (or error message thrown at) the caller. -/
def generateAdvertisementImage (description productBase64 productMimeType : String)
    (logoBase64 logoMimeType : Option String) (aspectRatio : AspectRatio)
    (useProModel : Bool) (responses : Nat → Except JsError GenResponse) :
    AssembledRequest × Except String String :=
  (assembleRequest description productBase64 productMimeType logoBase64
     logoMimeType aspectRatio useProModel,
   runGeneration useProModel responses)

/-- The `GenerationResult` record of the App component (part_000 lines
23-27): `error = none` models the `null` error. -/
structure GenerationResult where
  imageUrl : String
  loading : Bool
  error : Option String
deriving DecidableEq

/-- The error message set when no API key is found (part_000 line 77). -/
def apiKeyNotFoundMsg : String :=
  "API Key not found. Please check your .env file contains VITE_API_KEY."

/-- The credential-expiry message of the App error mapping (part_000
line 123). -/
def sessionExpiredMsg : String :=
  "Session expired or API Key invalid. Please reconnect."

/-- The error-message extraction of `handleGenerate` (part_000 lines
110-124) applied to the message of the caught error.  The errors thrown by
the service layer are `Error` instances, so when `err.message` is empty
the `JSON.stringify(err)` branch yields the two-character serialization of
an object with no enumerable own properties. -/
def displayErrorOf (m : String) : String :=
  let em1 := if m == "" then "\x7b\x7d" else m
  let em2 := if em1 == "" then "Something went wrong during generation." else em1
  if includes em2 "Requested entity was not found" || includes em2 "API Key not found"
  then sessionExpiredMsg
  else em2

/-- The result state written by `handleGenerate` once the service promise
settles (part_000 lines 98-102 and 128-132). -/
def handleFinish (pro : Bool)
    (responses : Nat → Except JsError GenResponse) : GenerationResult :=
  match runGeneration pro responses with
  | .ok url => ⟨url, false, none⟩
  | .error msg => ⟨"", false, some (displayErrorOf msg)⟩

/-- The user-interface events that write the result state.  The generate
button is disabled while `result.loading` and while the form lacks a
product image, so `handleGenerate` only runs from a non-loading state with
a product image present (making its `if (!productImage) return` branch a
no-op), and the finishing continuation runs from the loading state it set. -/
inductive GEvent where
  | missingKey
  | startGen
  | finish (pro : Bool) (responses : Nat → Except JsError GenResponse)
  | reset

/-- One state transition of the App result state, for a session whose
environment either provides an API key (`true`) or does not (`false`):
the early key-check error write (part_000 lines 76-80, which spreads the
previous state), the loading write at generation start (line 84), the
settling write (lines 98-102 / 128-132), and the New Design reset
(line 500). -/
inductive UStep : Bool → GEvent → GenerationResult → GenerationResult → Prop where
  | missingKey (s : GenerationResult) (h : s.loading = false) :
      UStep false .missingKey s ⟨s.imageUrl, s.loading, some apiKeyNotFoundMsg⟩
  | startGen (s : GenerationResult) (h : s.loading = false) :
      UStep true .startGen s ⟨"", true, none⟩
  | finish (s : GenerationResult) (pro : Bool)
      (responses : Nat → Except JsError GenResponse) (h : s.loading = true) :
      UStep true (.finish pro responses) s (handleFinish pro responses)
  | reset (key : Bool) (s : GenerationResult) (h : s.loading = false) :
      UStep key .reset s ⟨"", false, none⟩

/-- Result states reachable from the initial idle state (part_000 lines
23-27) through the transitions of `UStep`. -/
inductive Reachable (key : Bool) : GenerationResult → Prop where
  | init : Reachable key ⟨"", false, none⟩
  | step {ev : GEvent} {s s2 : GenerationResult} :
      Reachable key s → UStep key ev s s2 → Reachable key s2

/-- The state predicate claimed as the UI invariant: exactly one of
non-empty image, loading, error is active, or the state is idle. -/
def goodState (s : GenerationResult) : Prop :=
  (s.imageUrl ≠ "" ∧ s.loading = false ∧ s.error = none) ∨
  (s.imageUrl = "" ∧ s.loading = true ∧ s.error = none) ∨
  (s.imageUrl = "" ∧ s.loading = false ∧ s.error ≠ none) ∨
  (s.imageUrl = "" ∧ s.loading = false ∧ s.error = none)

theorem retryLoop_all_retryable {α : Type} (op : Nat → Except JsError α)
    (errs : Nat → JsError) (bd : Nat) :
    ∀ (fuel i : Nat) (le : Option JsError),
      (∀ j, i ≤ j → j < i + fuel →
        op j = .error (errs j) ∧ isZeroQuota (errs j).errString = false ∧
        (isRateLimit (errs j) || isServerOverload (errs j)) = true) →
      retryLoop op bd i le fuel =
        ⟨.failure (if fuel = 0 then le else some (errs (i + fuel - 1))),
         i + fuel,
         (List.range' i fuel).map fun j => bd * 2 ^ j⟩ := by
  intro fuel
  induction fuel with
  | zero => intro i le _; simp [retryLoop]
  | succ f ih =>
    intro i le h
    obtain ⟨hop, hzq, hrl⟩ := h i (Nat.le_refl i) (by omega)
    have hrest : ∀ j, i + 1 ≤ j → j < i + 1 + f →
        op j = .error (errs j) ∧ isZeroQuota (errs j).errString = false ∧
        (isRateLimit (errs j) || isServerOverload (errs j)) = true := by
      intro j hj1 hj2
      exact h j (by omega) (by omega)
    have := ih (i + 1) (some (errs i)) hrest
    simp only [retryLoop, hop, hzq, hrl, Bool.false_eq_true, if_false, if_true, this]
    simp only [RetryTrace.mk.injEq]
    refine ⟨?_, by omega, ?_⟩
    · cases f with
      | zero => simp
      | succ n =>
        have h1 : i + 1 + (n + 1) - 1 = i + (n + 1 + 1) - 1 := by omega
        simp [h1]
    · rw [List.range'_succ]
      simp

theorem retryLoop_succeeds {α : Type} (op : Nat → Except JsError α)
    (errs : Nat → JsError) (bd : Nat) (v : α) (s : Nat) :
    ∀ (fuel i : Nat) (le : Option JsError),
      i ≤ s → s < i + fuel →
      (∀ j, i ≤ j → j < s →
        op j = .error (errs j) ∧ isZeroQuota (errs j).errString = false ∧
        (isRateLimit (errs j) || isServerOverload (errs j)) = true) →
      op s = .ok v →
      retryLoop op bd i le fuel =
        ⟨.success v, s + 1, (List.range' i (s - i)).map fun j => bd * 2 ^ j⟩ := by
  intro fuel
  induction fuel with
  | zero => intro i le h1 h2 _ _; omega
  | succ f ih =>
    intro i le his hsf h hs
    rcases Nat.eq_or_lt_of_le his with heq | hlt
    · subst heq
      simp [retryLoop, hs]
    · obtain ⟨hop, hzq, hrl⟩ := h i (Nat.le_refl i) hlt
      have := ih (i + 1) (some (errs i)) (by omega) (by omega)
        (fun j hj1 hj2 => h j (by omega) hj2) hs
      simp only [retryLoop, hop, hzq, hrl, Bool.false_eq_true, if_false, if_true, this]
      simp only [RetryTrace.mk.injEq]
      refine ⟨trivial, trivial, ?_⟩
      have h1 : s - i = (s - (i + 1)) + 1 := by omega
      rw [h1, List.range'_succ]
      simp

theorem retryLoop_success_src {α : Type} (op : Nat → Except JsError α)
    (bd : Nat) (v : α) :
    ∀ (fuel i : Nat) (le : Option JsError),
      (retryLoop op bd i le fuel).outcome = .success v →
      ∃ j, op j = .ok v := by
  intro fuel
  induction fuel with
  | zero => intro i le h; simp [retryLoop] at h
  | succ f ih =>
    intro i le h
    rw [retryLoop] at h
    cases hop : op i with
    | ok w =>
      rw [hop] at h
      simp at h
      exact ⟨i, by rw [hop, h]⟩
    | error e =>
      rw [hop] at h
      by_cases hzq : isZeroQuota e.errString
      · simp [hzq] at h
      · by_cases hrl : (isRateLimit e || isServerOverload e) = true
        · simp [hzq, hrl] at h
          exact ih (i + 1) (some e) h
        · simp [hzq, hrl] at h

theorem includes_true_iff (hay needle : String) :
    includes hay needle = true ↔ List.IsInfix needle.data hay.data := by
  simp [includes]

theorem optTruthy_some {s : String} (h : s ≠ "") : optTruthy (some s) = true := by
  simp [optTruthy, h]

theorem buildPrompt_truthy (d lb : String) (h : lb ≠ "") :
    buildPrompt d (some lb) =
      promptSeg1 ++ logoInputLine ++ promptSeg2 ++ d ++ promptSeg3 ++
      logoDirective ++ promptSeg4 := by
  simp [buildPrompt, optTruthy_some h]

theorem buildPrompt_falsy (d : String) :
    buildPrompt d none =
      promptSeg1 ++ "" ++ promptSeg2 ++ d ++ promptSeg3 ++ "" ++ promptSeg4 := by
  simp [buildPrompt, optTruthy]

theorem includes_buildPrompt_directive (d lb : String) (h : lb ≠ "") :
    includes (buildPrompt d (some lb)) logoDirective = true := by
  rw [includes_true_iff, buildPrompt_truthy d lb h]
  refine ⟨(promptSeg1 ++ logoInputLine ++ promptSeg2 ++ d ++ promptSeg3).data,
          promptSeg4.data, ?_⟩
  simp [List.append_assoc]

theorem includes_buildPrompt_inputLine (d lb : String) (h : lb ≠ "") :
    includes (buildPrompt d (some lb)) logoInputLine = true := by
  rw [includes_true_iff, buildPrompt_truthy d lb h]
  refine ⟨promptSeg1.data,
          (promptSeg2 ++ d ++ promptSeg3 ++ logoDirective ++ promptSeg4).data, ?_⟩
  simp [List.append_assoc]

theorem buildPrompt_ne_brandLogo (d : String) (lb : Option String) :
    buildPrompt d lb ≠ "Brand Logo" := by
  intro h
  have h1 := congrArg String.length h
  simp only [buildPrompt, String.length_append] at h1
  have h2 : 10 < promptSeg1.length := by decide
  have h3 : ("Brand Logo" : String).length = 10 := by decide
  omega

theorem classifyError_ne_empty (pro : Bool) (e : JsError) :
    classifyError pro e ≠ "" := by
  unfold classifyError
  split_ifs with h1 h2 h3 h4 h5
  · decide
  · decide
  · cases pro <;> decide
  · decide
  · decide
  · intro hc
    simp [hc] at h5

theorem displayErrorOf_ne_empty (m : String) : displayErrorOf m ≠ "" := by
  simp only [displayErrorOf]
  split_ifs with h1 h2 h3 <;> first | decide | simp_all

theorem extractImage_ok_shape (r : GenResponse) (s : String)
    (h : extractImage r = .ok s) :
    ∃ dd, s = "data:image/png;base64," ++ dd := by
  unfold extractImage at h
  cases hf : (responseParts r).find? fun p => p.inlineData.isSome with
  | none => rw [hf] at h; simp at h
  | some p =>
    rw [hf] at h
    simp at h
    exact ⟨_, h.symm⟩

theorem runGeneration_ok_prefix (pro : Bool)
    (responses : Nat → Except JsError GenResponse) (v : String)
    (h : runGeneration pro responses = .ok v) :
    ∃ dd, v = "data:image/png;base64," ++ dd := by
  unfold runGeneration at h
  cases ho : (retryOperation (apiCallOf responses) 3 10000).outcome with
  | success w =>
    rw [ho] at h
    simp at h
    subst h
    obtain ⟨j, hj⟩ := retryLoop_success_src (apiCallOf responses) 10000 w 3 0 none ho
    unfold apiCallOf at hj
    cases hr : responses j with
    | error e => rw [hr] at hj; simp [Except.bind] at hj
    | ok r =>
      rw [hr] at hj
      simp [Except.bind] at hj
      exact extractImage_ok_shape r w hj
  | failure oe => cases oe <;> rw [ho] at h <;> simp at h

theorem runGeneration_error_ne_empty (pro : Bool)
    (responses : Nat → Except JsError GenResponse) (m : String)
    (h : runGeneration pro responses = .error m) : m ≠ "" := by
  unfold runGeneration at h
  cases ho : (retryOperation (apiCallOf responses) 3 10000).outcome with
  | success w => rw [ho] at h; simp at h
  | failure oe =>
    cases oe with
    | none =>
      rw [ho] at h
      simp at h
      subst h
      decide
    | some e =>
      rw [ho] at h
      simp at h
      subst h
      exact classifyError_ne_empty pro e

theorem reachable_keyFalse (s : GenerationResult) (h : Reachable false s) :
    s.imageUrl = "" ∧ s.loading = false := by
  induction h with
  | init => exact ⟨rfl, rfl⟩
  | step hr hs ih =>
    cases hs with
    | missingKey s hl => exact ⟨ih.1, ih.2⟩
    | reset key s hl => exact ⟨rfl, rfl⟩

theorem reachable_good (key : Bool) (s : GenerationResult)
    (h : Reachable key s) : goodState s := by
  induction h with
  | init => right; right; right; exact ⟨rfl, rfl, rfl⟩
  | @step ev s1 s2 hr hs ih =>
    cases hs with
    | missingKey sX hl =>
      have hk := reachable_keyFalse s1 hr
      right; right; left
      exact ⟨hk.1, hk.2, by simp⟩
    | startGen sX hl => right; left; exact ⟨rfl, rfl, rfl⟩
    | finish sX pro responses hl =>
      cases hg : runGeneration pro responses with
      | ok url =>
        left
        obtain ⟨dd, hdd⟩ := runGeneration_ok_prefix pro responses url hg
        refine ⟨?_, by simp [handleFinish, hg], by simp [handleFinish, hg]⟩
        simp only [handleFinish, hg]
        intro hc
        have hlen := congrArg String.length hc
        rw [hdd] at hlen
        simp only [String.length_append] at hlen
        have : 0 < ("data:image/png;base64," : String).length := by decide
        have h0 : ("" : String).length = 0 := by decide
        omega
      | error msg =>
        right; right; left
        simp [handleFinish, hg]
    | reset keyX sX hl => right; right; right; exact ⟨rfl, rfl, rfl⟩

/-- C1 counterexample: with the default parameters `maxRetries = 3`,
`baseDelay = 10000` and an operation that always fails with a 429 marker,
the claim predicts delays only between consecutive attempts
(`[10000, 20000]`), but `retryOperation` also waits `baseDelay * 2 ^ 2`
after the final attempt, producing `[10000, 20000, 40000]`. -/
theorem c1_retry_delays_counterexample :
    (retryOperation ((fun _ => .error ⟨"429", none, "boom"⟩) :
        Nat → Except JsError Nat) 3 10000).delays = [10000, 20000, 40000] ∧
    (retryOperation ((fun _ => .error ⟨"429", none, "boom"⟩) :
        Nat → Except JsError Nat) 3 10000).delays ≠ [10000, 20000] := by
  constructor <;> decide

/-- C1 (amended): for every operation that fails on every invocation with
a retryable (rate-limit or overload) marker and no zero-quota marker,
`retryOperation` invokes the operation exactly `maxRetries` times, waits
`baseDelay * 2 ^ i` after the i-th failed attempt — including after the
final attempt, so `maxRetries` delays in total — and then propagates the
last observed error. -/
theorem c1_retry_exhaustion_amended {α : Type} (op : Nat → Except JsError α)
    (errs : Nat → JsError) (maxRetries baseDelay : Nat)
    (hmr : 0 < maxRetries)
    (hop : ∀ j, j < maxRetries → op j = .error (errs j))
    (hzq : ∀ j, j < maxRetries → isZeroQuota (errs j).errString = false)
    (hrl : ∀ j, j < maxRetries →
      (isRateLimit (errs j) || isServerOverload (errs j)) = true) :
    retryOperation op maxRetries baseDelay =
      ⟨.failure (some (errs (maxRetries - 1))), maxRetries,
       (List.range maxRetries).map fun j => baseDelay * 2 ^ j⟩ := by
  have h := retryLoop_all_retryable op errs baseDelay maxRetries 0 none
    (fun j h1 h2 => ⟨hop j (by omega), hzq j (by omega), hrl j (by omega)⟩)
  rw [retryOperation, h]
  have hne : ¬(maxRetries = 0) := by omega
  simp [hne, List.range_eq_range']

/-- C1 witness: the amended statement evaluated on a concrete
always-503-failing operation with `maxRetries = 2`, `baseDelay = 5`. -/
theorem c1_retry_exhaustion_amended_witness :
    retryOperation ((fun _ => .error ⟨"503", some 503, "overloaded"⟩) :
        Nat → Except JsError Nat) 2 5 =
      ⟨.failure (some ⟨"503", some 503, "overloaded"⟩), 2, [5, 10]⟩ := by
  have h := c1_retry_exhaustion_amended
    ((fun _ => .error ⟨"503", some 503, "overloaded"⟩) : Nat → Except JsError Nat)
    (fun _ => ⟨"503", some 503, "overloaded"⟩) 2 5 (by decide)
    (fun j _ => rfl)
    (fun j _ => by
      show isZeroQuota (JsError.mk "503" (some 503) "overloaded").errString = false
      decide)
    (fun j _ => by
      show (isRateLimit (JsError.mk "503" (some 503) "overloaded") ||
        isServerOverload (JsError.mk "503" (some 503) "overloaded")) = true
      decide)
  exact h.trans (by decide)

/-- C2: for every operation whose error on the first attempt carries a
zero-quota marker in its serialization, `retryOperation` invokes the
operation exactly once, waits no delay, and throws the distinguished
signal: an error with message "QUOTA_ZERO" — regardless of how many
attempts remain. -/
theorem c2_zero_quota_aborts {α : Type} (op : Nat → Except JsError α)
    (e : JsError) (maxRetries baseDelay : Nat)
    (hmr : 0 < maxRetries) (hop : op 0 = .error e)
    (hzq : isZeroQuota e.errString = true) :
    retryOperation op maxRetries baseDelay =
      ⟨.failure (some (mkError "QUOTA_ZERO")), 1, []⟩ ∧
    (mkError "QUOTA_ZERO").message = "QUOTA_ZERO" := by
  refine ⟨?_, rfl⟩
  cases maxRetries with
  | zero => omega
  | succ n => simp [retryOperation, retryLoop, hop, hzq]

/-- C2 witness: the statement evaluated on a concrete operation whose
error serialization contains "limit: 0", with the default parameters. -/
theorem c2_zero_quota_aborts_witness :
    retryOperation ((fun _ => .error ⟨"quota limit: 0 for model", some 429, "boom"⟩) :
        Nat → Except JsError Nat) 3 10000 =
      ⟨.failure (some (mkError "QUOTA_ZERO")), 1, []⟩ :=
  (c2_zero_quota_aborts
    ((fun _ => .error ⟨"quota limit: 0 for model", some 429, "boom"⟩) :
        Nat → Except JsError Nat)
    ⟨"quota limit: 0 for model", some 429, "boom"⟩ 3 10000
    (by decide) rfl (by decide)).1

/-- C8: for every operation that succeeds on attempt k (1-indexed, with
k ≤ maxRetries) after failing with retryable rate-limit/overload markers
on all prior attempts, `retryOperation` returns that success value and
performs no invocation after attempt k. -/
theorem c8_success_stops_retrying {α : Type} (op : Nat → Except JsError α)
    (errs : Nat → JsError) (v : α) (k maxRetries baseDelay : Nat)
    (hk1 : 1 ≤ k) (hk2 : k ≤ maxRetries)
    (hop : ∀ j, j < k - 1 → op j = .error (errs j))
    (hzq : ∀ j, j < k - 1 → isZeroQuota (errs j).errString = false)
    (hrl : ∀ j, j < k - 1 →
      (isRateLimit (errs j) || isServerOverload (errs j)) = true)
    (hs : op (k - 1) = .ok v) :
    (retryOperation op maxRetries baseDelay).outcome = .success v ∧
    (retryOperation op maxRetries baseDelay).invocations = k := by
  have h := retryLoop_succeeds op errs baseDelay v (k - 1) maxRetries 0 none
    (by omega) (by omega) (fun j h1 h2 => ⟨hop j h2, hzq j h2, hrl j h2⟩) hs
  rw [retryOperation, h]
  refine ⟨rfl, ?_⟩
  show k - 1 + 1 = k
  omega

/-- C8 witness: a concrete operation failing with a 429 marker on the
first attempt and succeeding with value 7 on the second, under the
default parameters. -/
theorem c8_success_stops_retrying_witness :
    (retryOperation ((fun j => if j = 0 then .error ⟨"429", none, "x"⟩ else .ok 7) :
        Nat → Except JsError Nat) 3 10000).outcome = .success 7 ∧
    (retryOperation ((fun j => if j = 0 then .error ⟨"429", none, "x"⟩ else .ok 7) :
        Nat → Except JsError Nat) 3 10000).invocations = 2 :=
  c8_success_stops_retrying
    ((fun j => if j = 0 then .error ⟨"429", none, "x"⟩ else .ok 7) :
        Nat → Except JsError Nat)
    (fun _ => ⟨"429", none, "x"⟩) 7 2 3 10000 (by decide) (by decide)
    (fun j hj => by
      have hj0 : j = 0 := by omega
      subst hj0
      rfl)
    (fun j _ => by
      show isZeroQuota (JsError.mk "429" none "x").errString = false
      decide)
    (fun j _ => by
      show (isRateLimit (JsError.mk "429" none "x") ||
        isServerOverload (JsError.mk "429" none "x")) = true
      decide)
    rfl

/-- C3: the error classifier of `generateAdvertisementImage` returns
exactly one message, chosen in priority order: zero-quota signal first
(guidance about enabling the API / region), then 403/PERMISSION_DENIED
while the Pro tier is selected (billing guidance), then 404/NOT_FOUND
(selected tier not accessible), then 429/RESOURCE_EXHAUSTED/quota/limit
(free-tier limit), then the raw non-empty message verbatim, and a generic
failure message when no message is available. -/
theorem c3_error_classifier (pro : Bool) (e : JsError) :
    (zeroQuotaSignal e = true → classifyError pro e = zeroQuotaMsg) ∧
    (zeroQuotaSignal e = false → pro = true → permissionMarker e = true →
      classifyError pro e = billingMsg) ∧
    (zeroQuotaSignal e = false → (pro && permissionMarker e) = false →
      notFoundMarker e = true → classifyError pro e = notFoundMsg pro) ∧
    (zeroQuotaSignal e = false → (pro && permissionMarker e) = false →
      notFoundMarker e = false → rateLimitMarker e = true →
      classifyError pro e = freeTierMsg) ∧
    (zeroQuotaSignal e = false → (pro && permissionMarker e) = false →
      notFoundMarker e = false → rateLimitMarker e = false →
      e.message ≠ "" → classifyError pro e = e.message) ∧
    (zeroQuotaSignal e = false → (pro && permissionMarker e) = false →
      notFoundMarker e = false → rateLimitMarker e = false →
      e.message = "" → classifyError pro e = genericFailureMsg) ∧
    includes zeroQuotaMsg "enabled" = true ∧
    includes zeroQuotaMsg "region" = true ∧
    includes billingMsg "billing" = true ∧
    includes (notFoundMsg true) "Pro model is not accessible" = true ∧
    includes (notFoundMsg false) "Standard model is not accessible" = true ∧
    includes freeTierMsg "Free Tier Limit" = true := by
  refine ⟨?_, ?_, ?_, ?_, ?_, ?_,
    by decide, by decide, by decide, by decide, by decide, by decide⟩
  · intro h1
    simp [classifyError, h1]
  · intro h1 h2 h3
    simp [classifyError, h1, h2, h3]
  · intro h1 h2 h3
    simp [classifyError, h1, h2, h3]
  · intro h1 h2 h3 h4
    simp [classifyError, h1, h2, h3, h4]
  · intro h1 h2 h3 h4 h5
    simp [classifyError, h1, h2, h3, h4, h5]
  · intro h1 h2 h3 h4 h5
    simp [classifyError, h1, h2, h3, h4, h5]

/-- C3 witness: each classification branch evaluated at a concrete error. -/
theorem c3_error_classifier_witness :
    classifyError false ⟨"", none, "QUOTA_ZERO"⟩ = zeroQuotaMsg ∧
    classifyError true ⟨"http 403", none, ""⟩ = billingMsg ∧
    classifyError false ⟨"404 NOT_FOUND", none, ""⟩ = notFoundMsg false ∧
    classifyError false ⟨"429 quota", none, ""⟩ = freeTierMsg ∧
    classifyError false ⟨"weird", none, "boom"⟩ = "boom" ∧
    classifyError false ⟨"weird", none, ""⟩ = genericFailureMsg := by
  refine ⟨?_, ?_, ?_, ?_, ?_, ?_⟩
  · exact (c3_error_classifier false ⟨"", none, "QUOTA_ZERO"⟩).1 (by decide)
  · exact (c3_error_classifier true ⟨"http 403", none, ""⟩).2.1
      (by decide) rfl (by decide)
  · exact (c3_error_classifier false ⟨"404 NOT_FOUND", none, ""⟩).2.2.1
      (by decide) (by decide) (by decide)
  · exact (c3_error_classifier false ⟨"429 quota", none, ""⟩).2.2.2.1
      (by decide) (by decide) (by decide) (by decide)
  · exact (c3_error_classifier false ⟨"weird", none, "boom"⟩).2.2.2.2.1
      (by decide) (by decide) (by decide) (by decide) (by decide)
  · exact (c3_error_classifier false ⟨"weird", none, ""⟩).2.2.2.2.2.1
      (by decide) (by decide) (by decide) (by decide) rfl

/-- C4: every reachable UI result state satisfies the claimed invariant:
exactly one of non-empty image URL, loading, non-null error — or none of
the three (idle); in particular no reachable state carries both an image
and an error. -/
theorem c4_result_state_invariant (key : Bool) (s : GenerationResult)
    (h : Reachable key s) :
    goodState s ∧ ¬(s.imageUrl ≠ "" ∧ s.error ≠ none) := by
  have hg := reachable_good key s h
  refine ⟨hg, ?_⟩
  rcases hg with ⟨h1, h2, h3⟩ | ⟨h1, h2, h3⟩ | ⟨h1, h2, h3⟩ | ⟨h1, h2, h3⟩
  · rintro ⟨_, hc⟩
    exact hc h3
  · rintro ⟨hc, _⟩
    exact hc h1
  · rintro ⟨hc, _⟩
    exact hc h1
  · rintro ⟨hc, _⟩
    exact hc h1

/-- C4 witness: the invariant instantiated at the loading state reached by
pressing generate from the initial idle state. -/
theorem c4_result_state_invariant_witness :
    goodState ⟨"", true, none⟩ ∧
    ¬((⟨"", true, none⟩ : GenerationResult).imageUrl ≠ "" ∧
      (⟨"", true, none⟩ : GenerationResult).error ≠ none) :=
  c4_result_state_invariant true ⟨"", true, none⟩
    (Reachable.step Reachable.init (UStep.startGen ⟨"", false, none⟩ rfl))

/-- C5: every failed generation leaves the result record with an empty
image URL and a non-empty error string — both when the service call
settles with an error and when the early missing-API-key check fires
(in a keyless session, whose reachable states have no image). -/
theorem c5_failed_generation_state :
    (∀ (pro : Bool) (responses : Nat → Except JsError GenResponse) (m : String),
      runGeneration pro responses = .error m →
      (handleFinish pro responses).imageUrl = "" ∧
      ∃ em, (handleFinish pro responses).error = some em ∧ em ≠ "") ∧
    (∀ (s s2 : GenerationResult), Reachable false s →
      UStep false .missingKey s s2 →
      s2.imageUrl = "" ∧ ∃ em, s2.error = some em ∧ em ≠ "") := by
  constructor
  · intro pro rs m h
    constructor
    · simp [handleFinish, h]
    · exact ⟨displayErrorOf m, by simp [handleFinish, h], displayErrorOf_ne_empty m⟩
  · intro s s2 hr hs
    cases hs with
    | missingKey sX hl =>
      have hk := reachable_keyFalse s hr
      exact ⟨hk.1, apiKeyNotFoundMsg, rfl, by decide⟩

/-- C5 witness: a concrete 404-failing service call, and the missing-key
write from the initial idle state. -/
theorem c5_failed_generation_state_witness :
    ((handleFinish false ((fun _ => .error ⟨"404", none, "nf"⟩) :
        Nat → Except JsError GenResponse)).imageUrl = "" ∧
      ∃ em, (handleFinish false ((fun _ => .error ⟨"404", none, "nf"⟩) :
        Nat → Except JsError GenResponse)).error = some em ∧ em ≠ "") ∧
    ((⟨"", false, some apiKeyNotFoundMsg⟩ : GenerationResult).imageUrl = "" ∧
      ∃ em, (⟨"", false, some apiKeyNotFoundMsg⟩ : GenerationResult).error =
        some em ∧ em ≠ "") := by
  constructor
  · exact c5_failed_generation_state.1 false
      ((fun _ => .error ⟨"404", none, "nf"⟩) : Nat → Except JsError GenResponse)
      (notFoundMsg false) rfl
  · exact c5_failed_generation_state.2 ⟨"", false, none⟩
      ⟨"", false, some apiKeyNotFoundMsg⟩ Reachable.init
      (UStep.missingKey ⟨"", false, none⟩ rfl)

/-- C6 counterexample: with no logo supplied but a description equal to
the compositing directive itself, the assembled instruction text does
contain the logo directive, contradicting the claim that it contains no
logo directive whenever no logo is supplied. -/
theorem c6_logo_assembly_counterexample :
    includes (buildPrompt logoDirective none) logoDirective = true ∧
    ReqPart.text (buildPrompt logoDirective none) ∈
      (assembleRequest logoDirective "prodB64" "image/png" none none
        AspectRatio.square false).parts := by
  constructor
  · rw [includes_true_iff, buildPrompt_falsy]
    refine ⟨(promptSeg1 ++ "" ++ promptSeg2).data,
            (promptSeg3 ++ "" ++ promptSeg4).data, ?_⟩
    simp [List.append_assoc]
  · simp [assembleRequest, optTruthy]

/-- C6 (amended): supplying a logo (non-empty base64 and MIME type) puts a
labeled logo part into the parts list and the compositing directive into
the instruction text; supplying no logo leaves the parts list without any
logo part, and the instruction text is exactly the directive-free template
around the caller-supplied description (each fixed template segment is
free of the directive, so the directive can only enter through the
description). -/
theorem c6_logo_assembly_amended :
    (∀ (d p pm lb lm : String) (ar : AspectRatio) (pro : Bool),
      lb ≠ "" → lm ≠ "" →
      (assembleRequest d p pm (some lb) (some lm) ar pro).parts =
        [ReqPart.inlineData (cleanBase64 p) pm, ReqPart.text "Product Image",
         ReqPart.inlineData (cleanBase64 lb) lm, ReqPart.text "Brand Logo",
         ReqPart.text (buildPrompt d (some lb))] ∧
      includes (buildPrompt d (some lb)) logoDirective = true) ∧
    (∀ (d p pm : String) (ar : AspectRatio) (pro : Bool),
      (assembleRequest d p pm none none ar pro).parts =
        [ReqPart.inlineData (cleanBase64 p) pm, ReqPart.text "Product Image",
         ReqPart.text (buildPrompt d none)] ∧
      ReqPart.text "Brand Logo" ∉
        (assembleRequest d p pm none none ar pro).parts ∧
      buildPrompt d none =
        promptSeg1 ++ "" ++ promptSeg2 ++ d ++ promptSeg3 ++ "" ++ promptSeg4 ∧
      includes promptSeg1 logoDirective = false ∧
      includes promptSeg2 logoDirective = false ∧
      includes promptSeg3 logoDirective = false ∧
      includes promptSeg4 logoDirective = false) := by
  constructor
  · intro d p pm lb lm ar pro hlb hlm
    refine ⟨?_, includes_buildPrompt_directive d lb hlb⟩
    simp [assembleRequest, optTruthy, hlb, hlm]
  · intro d p pm ar pro
    refine ⟨by simp [assembleRequest, optTruthy], ?_,
      buildPrompt_falsy d, by decide, by decide, by decide, by decide⟩
    have hb := buildPrompt_ne_brandLogo d none
    simp [assembleRequest, optTruthy]
    exact fun hc => hb hc.symm

/-- C6 witness: both halves of the amended statement at concrete inputs. -/
theorem c6_logo_assembly_amended_witness :
    (assembleRequest "golden hour" "pb64" "image/png" (some "lb64")
        (some "image/jpeg") AspectRatio.square false).parts =
      [ReqPart.inlineData (cleanBase64 "pb64") "image/png",
       ReqPart.text "Product Image",
       ReqPart.inlineData (cleanBase64 "lb64") "image/jpeg",
       ReqPart.text "Brand Logo",
       ReqPart.text (buildPrompt "golden hour" (some "lb64"))] ∧
    includes (buildPrompt "golden hour" (some "lb64")) logoDirective = true ∧
    (assembleRequest "golden hour" "pb64" "image/png" none none
        AspectRatio.square false).parts =
      [ReqPart.inlineData (cleanBase64 "pb64") "image/png",
       ReqPart.text "Product Image",
       ReqPart.text (buildPrompt "golden hour" none)] := by
  have h1 := c6_logo_assembly_amended.1 "golden hour" "pb64" "image/png"
    "lb64" "image/jpeg" AspectRatio.square false (by decide) (by decide)
  have h2 := c6_logo_assembly_amended.2 "golden hour" "pb64" "image/png"
    AspectRatio.square false
  exact ⟨h1.1, h1.2, h2.1⟩

/-- C7: with tier standard, no logo and square aspect, the assembled
request uses the free-tier model identifier (which differs from the pro
identifier), sets the aspect ratio to square, carries no resolution hint
and no logo part; with tier pro the pro model identifier is used and the
"1K" image size is requested. -/
theorem c7_model_tier_selection :
    (∀ (d p pm : String),
      assembleRequest d p pm none none AspectRatio.square false =
        ⟨"gemini-2.5-flash-image",
         [ReqPart.inlineData (cleanBase64 p) pm, ReqPart.text "Product Image",
          ReqPart.text (buildPrompt d none)],
         ⟨AspectRatio.square, none⟩⟩ ∧
      ("gemini-2.5-flash-image" : String) ≠ "gemini-3-pro-image-preview" ∧
      ReqPart.text "Brand Logo" ∉
        (assembleRequest d p pm none none AspectRatio.square false).parts) ∧
    (∀ (d p pm : String) (lb lm : Option String) (ar : AspectRatio),
      (assembleRequest d p pm lb lm ar true).model =
        "gemini-3-pro-image-preview" ∧
      (assembleRequest d p pm lb lm ar true).imageConfig.imageSize =
        some "1K") := by
  constructor
  · intro d p pm
    refine ⟨by simp [assembleRequest, optTruthy], by decide, ?_⟩
    have hb := buildPrompt_ne_brandLogo d none
    simp [assembleRequest, optTruthy]
    exact fun hc => hb hc.symm
  · intro d p pm lb lm ar
    exact ⟨rfl, rfl⟩

/-- C7 witness: the statement instantiated at concrete inputs. -/
theorem c7_model_tier_selection_witness :
    assembleRequest "golden hour beach shot" "pb64" "image/png" none none
        AspectRatio.square false =
      ⟨"gemini-2.5-flash-image",
       [ReqPart.inlineData (cleanBase64 "pb64") "image/png",
        ReqPart.text "Product Image",
        ReqPart.text (buildPrompt "golden hour beach shot" none)],
       ⟨AspectRatio.square, none⟩⟩ ∧
    (assembleRequest "golden hour beach shot" "pb64" "image/png" none none
        AspectRatio.square true).model = "gemini-3-pro-image-preview" ∧
    (assembleRequest "golden hour beach shot" "pb64" "image/png" none none
        AspectRatio.square true).imageConfig.imageSize = some "1K" := by
  have h1 := (c7_model_tier_selection.1 "golden hour beach shot" "pb64" "image/png").1
  have h2 := c7_model_tier_selection.2 "golden hour beach shot" "pb64" "image/png"
    none none AspectRatio.square
  exact ⟨h1, h2.1, h2.2⟩

/-- C9 counterexample: with `logoBase64` non-null but equal to the empty
string (which is falsy in JavaScript) and a null MIME type, the
instruction text contains neither the brand-logo input line nor the
compositing directive, contradicting the claim for every non-null
`logoBase64`. -/
theorem c9_prompt_part_mismatch_counterexample :
    includes (buildPrompt "a summer beach scene" (some "")) logoDirective = false ∧
    includes (buildPrompt "a summer beach scene" (some "")) logoInputLine = false := by
  constructor <;> decide

/-- C9 (amended): for every call with a truthy (non-null, non-empty)
`logoBase64` and a null `logoMimeType`, the instruction text includes the
brand-logo input line and the compositing directive, yet the parts list
contains no logo inline-data part and no "Brand Logo" label: the prompt is
guarded on `logoBase64` alone while the part is guarded on both fields. -/
theorem c9_prompt_part_mismatch_amended (d p pm lb : String)
    (ar : AspectRatio) (pro : Bool) (h : lb ≠ "") :
    includes (buildPrompt d (some lb)) logoInputLine = true ∧
    includes (buildPrompt d (some lb)) logoDirective = true ∧
    (assembleRequest d p pm (some lb) none ar pro).parts =
      [ReqPart.inlineData (cleanBase64 p) pm, ReqPart.text "Product Image",
       ReqPart.text (buildPrompt d (some lb))] ∧
    ReqPart.text "Brand Logo" ∉
      (assembleRequest d p pm (some lb) none ar pro).parts := by
  refine ⟨includes_buildPrompt_inputLine d lb h,
    includes_buildPrompt_directive d lb h,
    by simp [assembleRequest, optTruthy], ?_⟩
  have hb := buildPrompt_ne_brandLogo d (some lb)
  simp [assembleRequest, optTruthy]
  exact fun hc => hb hc.symm

/-- C9 witness: the amended statement at a concrete call. -/
theorem c9_prompt_part_mismatch_amended_witness :
    includes (buildPrompt "beach" (some "lb64")) logoInputLine = true ∧
    includes (buildPrompt "beach" (some "lb64")) logoDirective = true ∧
    (assembleRequest "beach" "pb64" "image/png" (some "lb64") none
        AspectRatio.story true).parts =
      [ReqPart.inlineData (cleanBase64 "pb64") "image/png",
       ReqPart.text "Product Image",
       ReqPart.text (buildPrompt "beach" (some "lb64"))] := by
  have h := c9_prompt_part_mismatch_amended "beach" "pb64" "image/png" "lb64"
    AspectRatio.story true (by decide)
  exact ⟨h.1, h.2.1, h.2.2.1⟩

/-- C10: a successful generation returns a data URL that is the fixed
PNG prefix followed by the data of the first inline-data part of the
first candidate of the service response, regardless of the supplied MIME
types and of the actual format of the returned image; and every success
value of the whole pipeline has this prefix. -/
theorem c10_data_url_shape :
    (∀ (r : GenResponse) (cs : List Candidate) (c : Candidate) (ct : Content)
        (ps : List RespPart) (p : RespPart) (d : InlineData),
      r.candidates = some (c :: cs) → c.content = some ct →
      ct.parts = some ps →
      (ps.find? fun q => q.inlineData.isSome) = some p →
      p.inlineData = some d →
      extractImage r = .ok ("data:image/png;base64," ++ d.data)) ∧
    (∀ (pro : Bool) (responses : Nat → Except JsError GenResponse) (v : String),
      runGeneration pro responses = .ok v →
      ∃ dd, v = "data:image/png;base64," ++ dd) := by
  constructor
  · intro r cs c ct ps p d h1 h2 h3 h4 h5
    simp [extractImage, responseParts, h1, h2, h3, h4, h5]
  · intro pro responses v h
    exact runGeneration_ok_prefix pro responses v h

/-- C10 witness: a concrete response whose first candidate has a text-only
part followed by an inline-data part in a non-PNG format. -/
theorem c10_data_url_shape_witness :
    extractImage ⟨some [⟨some ⟨some [⟨none⟩, ⟨some ⟨"IMGDATA", "image/webp"⟩⟩]⟩⟩]⟩ =
      .ok ("data:image/png;base64," ++ "IMGDATA") := by
  exact (c10_data_url_shape.1
    ⟨some [⟨some ⟨some [⟨none⟩, ⟨some ⟨"IMGDATA", "image/webp"⟩⟩]⟩⟩]⟩
    [] ⟨some ⟨some [⟨none⟩, ⟨some ⟨"IMGDATA", "image/webp"⟩⟩]⟩⟩
    ⟨some [⟨none⟩, ⟨some ⟨"IMGDATA", "image/webp"⟩⟩]⟩
    [⟨none⟩, ⟨some ⟨"IMGDATA", "image/webp"⟩⟩]
    ⟨some ⟨"IMGDATA", "image/webp"⟩⟩ ⟨"IMGDATA", "image/webp"⟩
    rfl rfl rfl (by decide) rfl)
